import Mathlib

set_option maxRecDepth 100000

/-!
Verification of `create_temp_font.py`, a script that builds a 4096-byte raw
bitmap font blob (256 glyph records of 16 bytes each), populates the glyphs
for the characters A, H, e, l, o by direct byte assignments, writes the blob
to `assets/default_font.bin`, and prints a confirmation line.

The buffer is modelled as a `List Nat` of byte values; a single byte
assignment `font_data[i] = v` is modelled by `setByte`, which fails (like a
Python `bytearray` item assignment raising `IndexError`/`ValueError`) when
the index is out of range or the value is not an 8-bit byte.  The straight
line of assignments in the script is the list `font_data_assignments`, in
source order, folded over the zero buffer by `applyAssignments`.  The I/O
tail of the script (open, write, print) is modelled by `runProgram` as an
effect trace plus a process exit code, parametrised by the two ways the
filesystem can fail (missing/unwritable directory, failing write).
-/

/-- Model of `font_data = bytearray(256 * 16)` (line 7): a zero-filled
byte buffer of length 4096. -/
def font_data_init : List Nat := List.replicate (256 * 16) 0

/-- Model of one Python `bytearray` item assignment `buf[i] = v`: succeeds
with the updated buffer when the index is in range and the value is a byte,
and fails (raises) otherwise. -/
def setByte (buf : List Nat) (i v : Nat) : Option (List Nat) :=
  if i < buf.length ∧ v < 256 then some (buf.set i v) else none

/-- The 40 byte assignments of lines 9-57 of `create_temp_font.py`, in
source order, as (offset, value) pairs.  Offsets and values are transcribed
literally from the source (`0b...` binary literals). -/
def font_data_assignments : List (Nat × Nat) :=
  [ (0x41 * 16 + 2, 0b00111100),
    (0x41 * 16 + 3, 0b01100110),
    (0x41 * 16 + 4, 0b11000011),
    (0x41 * 16 + 5, 0b11000011),
    (0x41 * 16 + 6, 0b11111111),
    (0x41 * 16 + 7, 0b11000011),
    (0x41 * 16 + 8, 0b11000011),
    (0x41 * 16 + 9, 0b11000011),
    (0x48 * 16 + 2, 0b11000011),
    (0x48 * 16 + 3, 0b11000011),
    (0x48 * 16 + 4, 0b11000011),
    (0x48 * 16 + 5, 0b11111111),
    (0x48 * 16 + 6, 0b11000011),
    (0x48 * 16 + 7, 0b11000011),
    (0x48 * 16 + 8, 0b11000011),
    (0x48 * 16 + 9, 0b11000011),
    (0x65 * 16 + 4, 0b00111100),
    (0x65 * 16 + 5, 0b01100110),
    (0x65 * 16 + 6, 0b11111111),
    (0x65 * 16 + 7, 0b11000000),
    (0x65 * 16 + 8, 0b11000000),
    (0x65 * 16 + 9, 0b01100110),
    (0x65 * 16 + 10, 0b00111100),
    (0x6C * 16 + 1, 0b00111000),
    (0x6C * 16 + 2, 0b00011000),
    (0x6C * 16 + 3, 0b00011000),
    (0x6C * 16 + 4, 0b00011000),
    (0x6C * 16 + 5, 0b00011000),
    (0x6C * 16 + 6, 0b00011000),
    (0x6C * 16 + 7, 0b00011000),
    (0x6C * 16 + 8, 0b00011000),
    (0x6C * 16 + 9, 0b00011000),
    (0x6C * 16 + 10, 0b00111100),
    (0x6F * 16 + 4, 0b00111100),
    (0x6F * 16 + 5, 0b01100110),
    (0x6F * 16 + 6, 0b11000011),
    (0x6F * 16 + 7, 0b11000011),
    (0x6F * 16 + 8, 0b11000011),
    (0x6F * 16 + 9, 0b01100110),
    (0x6F * 16 + 10, 0b00111100) ]

/-- Run a list of byte assignments over a buffer, left to right, stopping
with failure as soon as one assignment fails (the first raised exception
aborts the Python script). -/
def applyAssignments (buf : List Nat) : List (Nat × Nat) → Option (List Nat)
  | [] => some buf
  | (i, v) :: rest =>
    match setByte buf i v with
    | some buf' => applyAssignments buf' rest
    | none => none

/-- The buffer the script has built after the whole population phase
(lines 7-57): `some` of the completed blob, or `none` had any assignment
raised. -/
def font_data : Option (List Nat) :=
  applyAssignments font_data_init font_data_assignments

/-- The completed 4096-byte blob (the population phase does succeed, see
`font_data_eq`). -/
def fontBuffer : List Nat := font_data.getD []

/-- The buffer offsets the script writes to: the populated row offsets of
the five glyphs. -/
def populatedOffsets : List Nat := font_data_assignments.map Prod.fst

/-- The fixed output path of line 59. -/
def outputPath : String := "assets/default_font.bin"

/-- The confirmation line printed on line 62. -/
def confirmationMessage : String := "Created default_font.bin"

/-- Observable side effects of the script: opening (creating/truncating) a
file for binary writing, writing bytes to it, printing a line to standard
output.  The script performs no reads and touches no other resource, so the
trace alphabet has no further constructors. -/
inductive Effect where
  | openWrite (path : String)
  | writeBytes (path : String) (contents : List Nat)
  | printLine (msg : String)
deriving DecidableEq, Repr

/-- Filesystem circumstances a run can encounter: whether the parent
directory `assets/` exists and is writable (so `open(..., 'wb')` on line 59
succeeds), and whether the write call on line 60 itself succeeds. -/
structure Fs where
  dirExists : Bool
  writeOk : Bool
deriving DecidableEq, Repr

/-- Model of a whole run of the script: the effect trace it performs and
the process exit status.  The script has no try/except, so the first
failure aborts it with Python's uncaught-exception exit status 1; a
complete run exits 0.  When the directory is missing, `open` raises before
any file is created, so the trace is empty; when `open` succeeds but the
write fails, the file was opened (created/truncated) but the blob was not
written. -/
def runProgram (fs : Fs) : List Effect × Nat :=
  match font_data with
  | none => ([], 1)
  | some buf =>
    if fs.dirExists then
      if fs.writeOk then
        ([Effect.openWrite outputPath, Effect.writeBytes outputPath buf,
          Effect.printLine confirmationMessage], 0)
      else
        ([Effect.openWrite outputPath], 1)
    else
      ([], 1)

/-- Ambient state a process run could in principle observe: clock,
randomness, environment variables.  The script reads none of them. -/
structure World where
  time : Nat
  randSeed : Nat
  envVars : List (String × String)

/-- The buffer-construction procedure as run in an ambient world: the
script reads no input at all (no clock, randomness or environment access
occurs anywhere in the source), so the world parameter is unused. -/
def buildInWorld (_w : World) : Option (List Nat) :=
  applyAssignments font_data_init font_data_assignments

/-- The value of the last assignment to offset `i` in an assignment list,
if any: the byte the buffer holds at `i` after running the list (later
assignments shadow earlier ones). -/
def lastWrite (i : Nat) : List (Nat × Nat) → Option Nat
  | [] => none
  | (j, v) :: rest =>
    match lastWrite i rest with
    | some w => some w
    | none => if j = i then some v else none

/-- Whether an effect is a byte write to a file. -/
def isFileWriteEffect : Effect → Bool
  | Effect.writeBytes _ _ => true
  | _ => false

/-- Whether an effect opens a file for writing (creating or truncating it). -/
def isOpenEffect : Effect → Bool
  | Effect.openWrite _ => true
  | _ => false

/-- Whether an effect is a line printed to standard output. -/
def isPrintEffect : Effect → Bool
  | Effect.printLine _ => true
  | _ => false

/-- The filesystem path an effect touches, if any. -/
def effectPath : Effect → Option String
  | Effect.openWrite p => some p
  | Effect.writeBytes p _ => some p
  | Effect.printLine _ => none

/-- The glyph table as the spec states it (section 6): for each populated
code point, the list of (row, bit pattern) pairs, flattened to
(code point, row, value) triples.  This transcribes the SPEC's table, to be
compared with the buffer the SOURCE builds. -/
def specRowTable : List (Nat × Nat × Nat) :=
  [ (0x41, 2, 0x3C), (0x41, 3, 0x66), (0x41, 4, 0xC3), (0x41, 5, 0xC3),
    (0x41, 6, 0xFF), (0x41, 7, 0xC3), (0x41, 8, 0xC3), (0x41, 9, 0xC3),
    (0x48, 2, 0xC3), (0x48, 3, 0xC3), (0x48, 4, 0xC3), (0x48, 5, 0xFF),
    (0x48, 6, 0xC3), (0x48, 7, 0xC3), (0x48, 8, 0xC3), (0x48, 9, 0xC3),
    (0x65, 4, 0x3C), (0x65, 5, 0x66), (0x65, 6, 0xFF), (0x65, 7, 0xC0),
    (0x65, 8, 0xC0), (0x65, 9, 0x66), (0x65, 10, 0x3C),
    (0x6C, 1, 0x38), (0x6C, 2, 0x18), (0x6C, 3, 0x18), (0x6C, 4, 0x18),
    (0x6C, 5, 0x18), (0x6C, 6, 0x18), (0x6C, 7, 0x18), (0x6C, 8, 0x18),
    (0x6C, 9, 0x18), (0x6C, 10, 0x3C),
    (0x6F, 4, 0x3C), (0x6F, 5, 0x66), (0x6F, 6, 0xC3), (0x6F, 7, 0xC3),
    (0x6F, 8, 0xC3), (0x6F, 9, 0x66), (0x6F, 10, 0x3C) ]

/-- Inversion for a successful byte assignment: the index was in range, the
value was a byte, and the result is the point update of the buffer. -/
lemma setByte_eq_some {buf b : List Nat} {i v : Nat} (h : setByte buf i v = some b) :
    (i < buf.length ∧ v < 256) ∧ b = buf.set i v := by
  unfold setByte at h
  split at h
  · exact ⟨by assumption, (Option.some.inj h).symm⟩
  · exact absurd h (by simp)

/-- A successful byte assignment preserves the buffer length. -/
lemma setByte_length {buf b : List Nat} {i v : Nat} (h : setByte buf i v = some b) :
    b.length = buf.length := by
  obtain ⟨_, rfl⟩ := setByte_eq_some h
  exact List.length_set ..

/-- A byte assignment with an in-range index and a byte value succeeds. -/
lemma setByte_some {buf : List Nat} {i v : Nat} (h₁ : i < buf.length) (h₂ : v < 256) :
    setByte buf i v = some (buf.set i v) := by
  simp [setByte, h₁, h₂]

/-- Unfolding `applyAssignments` on a cons cell into `Option.bind` form. -/
lemma applyAssignments_cons (buf : List Nat) (i v : Nat) (rest : List (Nat × Nat)) :
    applyAssignments buf ((i, v) :: rest)
      = (setByte buf i v).bind (fun b => applyAssignments b rest) := by
  cases h : setByte buf i v <;> simp [applyAssignments, h]

/-- Running a list of assignments preserves the buffer length. -/
lemma applyAssignments_length : ∀ (l : List (Nat × Nat)) (buf buf' : List Nat),
    applyAssignments buf l = some buf' → buf'.length = buf.length := by
  intro l
  induction l with
  | nil =>
    intro buf buf' h
    simp [applyAssignments] at h
    simp [← h]
  | cons p rest ih =>
    intro buf buf' h
    obtain ⟨i, v⟩ := p
    rw [applyAssignments_cons] at h
    cases hs : setByte buf i v with
    | none => rw [hs] at h; exact absurd h (by simp)
    | some b =>
      rw [hs] at h
      simp only [Option.bind] at h
      rw [ih b buf' h, setByte_length hs]

/-- Running a list of in-range byte assignments never fails. -/
lemma applyAssignments_isSome : ∀ (l : List (Nat × Nat)) (buf : List Nat),
    (∀ p ∈ l, p.1 < buf.length ∧ p.2 < 256) → (applyAssignments buf l).isSome := by
  intro l
  induction l with
  | nil => intro buf _; simp [applyAssignments]
  | cons p rest ih =>
    intro buf hb
    obtain ⟨i, v⟩ := p
    obtain ⟨h₁, h₂⟩ := hb (i, v) (List.mem_cons_self ..)
    rw [applyAssignments_cons, setByte_some h₁ h₂]
    simp only [Option.bind]
    apply ih
    intro q hq
    have := hb q (List.mem_cons_of_mem _ hq)
    simpa [List.length_set] using this

/-- The zero buffer of line 7 has length 4096. -/
lemma font_data_init_length : font_data_init.length = 4096 := by
  show (List.replicate (256 * 16) 0).length = 4096
  rw [List.length_replicate]

/-- Every assignment of the script is in range of the 4096-byte buffer and
assigns a byte value. -/
lemma font_data_assignments_inbounds :
    ∀ p ∈ font_data_assignments, p.1 < font_data_init.length ∧ p.2 < 256 := by
  simp only [font_data_init_length]
  decide

/-- The population phase of the script succeeds. -/
lemma font_data_isSome : font_data.isSome := by
  exact applyAssignments_isSome _ _ font_data_assignments_inbounds

/-- The population phase succeeds and yields `fontBuffer`. -/
lemma font_data_eq : font_data = some fontBuffer := by
  unfold fontBuffer
  cases h : font_data with
  | none => exact absurd (h ▸ font_data_isSome) (by simp)
  | some b => rfl

/-- The completed blob has length 4096. -/
lemma fontBuffer_length : fontBuffer.length = 4096 := by
  rw [applyAssignments_length font_data_assignments font_data_init fontBuffer font_data_eq]
  exact font_data_init_length

/-- Characterization of the buffer produced by a successful assignment run:
at any in-range offset it holds the last value written there, or the
original byte when the offset was never written. -/
lemma applyAssignments_getElem? : ∀ (l : List (Nat × Nat)) (buf buf' : List Nat),
    applyAssignments buf l = some buf' → ∀ i, i < buf.length →
    buf'[i]? = (match lastWrite i l with | some v => some v | none => buf[i]?) := by
  intro l
  induction l with
  | nil =>
    intro buf buf' h i _
    simp [applyAssignments] at h
    simp [← h, lastWrite]
  | cons p rest ih =>
    intro buf buf' h i hi
    obtain ⟨j, v⟩ := p
    rw [applyAssignments_cons] at h
    cases hs : setByte buf j v with
    | none => rw [hs] at h; exact absurd h (by simp)
    | some b =>
      rw [hs] at h
      simp only [Option.bind] at h
      obtain ⟨⟨hj, _⟩, hb⟩ := setByte_eq_some hs
      have hblen : b.length = buf.length := setByte_length hs
      have H := ih b buf' h i (hblen ▸ hi)
      rw [H]
      cases hw : lastWrite i rest with
      | some w => simp [lastWrite, hw]
      | none =>
        simp only [lastWrite, hw]
        by_cases hji : j = i
        · subst hji
          simp only [if_pos rfl, hb]
          simp [List.getElem?_set, hj]
        · simp only [if_neg hji, hb]
          simp [List.getElem?_set_ne, hji]

/-- An offset never assigned has no last write. -/
lemma lastWrite_of_not_mem : ∀ (l : List (Nat × Nat)) (i : Nat),
    i ∉ l.map Prod.fst → lastWrite i l = none := by
  intro l
  induction l with
  | nil => intro i _; rfl
  | cons p rest ih =>
    intro i hm
    obtain ⟨j, v⟩ := p
    rw [List.map_cons, List.mem_cons] at hm
    push_neg at hm
    simp [lastWrite, ih i hm.2, Ne.symm hm.1]

/-- The completed blob holds, at every in-range offset, the last value the
script wrote there, and 0 where it never wrote. -/
lemma fontBuffer_getElem? (i : Nat) (hi : i < 4096) :
    fontBuffer[i]? =
      (match lastWrite i font_data_assignments with | some v => some v | none => some 0) := by
  have H := applyAssignments_getElem? font_data_assignments font_data_init fontBuffer
    font_data_eq i (font_data_init_length ▸ hi)
  rw [H]
  cases hw : lastWrite i font_data_assignments with
  | some w => rfl
  | none =>
    show (List.replicate (256 * 16) 0)[i]? = some 0
    rw [List.getElem?_replicate, if_pos (show i < 256 * 16 from hi)]

/-- A run with the directory present and a succeeding write performs the
open, the single full-buffer write, and the confirmation print, then exits
with status 0. -/
lemma runProgram_ok : runProgram ⟨true, true⟩ =
    ([Effect.openWrite outputPath, Effect.writeBytes outputPath fontBuffer,
      Effect.printLine confirmationMessage], 0) := by
  unfold runProgram
  rw [font_data_eq]
  rfl

/-- A run with the directory present but a failing write opens the file,
performs no successful write, and exits with status 1. -/
lemma runProgram_writeFail : runProgram ⟨true, false⟩ =
    ([Effect.openWrite outputPath], 1) := by
  unfold runProgram
  rw [font_data_eq]
  rfl

/-- A run with the directory missing performs no effect at all and exits
with status 1. -/
lemma runProgram_noDir (w : Bool) : runProgram ⟨false, w⟩ = ([], 1) := by
  unfold runProgram
  rw [font_data_eq]
  rfl

/-- Two byte assignments at distinct offsets commute (including their
failure behaviour, since neither changes the buffer length). -/
lemma setByte_comm (buf : List Nat) {i₁ i₂ : Nat} (v₁ v₂ : Nat) (h : i₁ ≠ i₂) :
    (setByte buf i₁ v₁).bind (fun b => setByte b i₂ v₂)
      = (setByte buf i₂ v₂).bind (fun b => setByte b i₁ v₁) := by
  by_cases h₁ : i₁ < buf.length ∧ v₁ < 256 <;>
    by_cases h₂ : i₂ < buf.length ∧ v₂ < 256 <;>
      simp [setByte, h₁, h₂, List.length_set, List.set_comm v₁ v₂ buf h]

/-- Running an assignment list whose offsets are pairwise distinct gives
the same result as running any permutation of it. -/
lemma applyAssignments_perm {l₁ l₂ : List (Nat × Nat)} (h : l₁.Perm l₂) :
    (l₁.map Prod.fst).Nodup → ∀ buf, applyAssignments buf l₁ = applyAssignments buf l₂ := by
  induction h with
  | nil => intro _ buf; rfl
  | cons x hp ih =>
    intro hn buf
    obtain ⟨i, v⟩ := x
    rw [List.map_cons] at hn
    have hn' := (List.nodup_cons.mp hn).2
    rw [applyAssignments_cons, applyAssignments_cons]
    cases hs : setByte buf i v with
    | none => rfl
    | some b => exact ih hn' b
  | swap x y l =>
    intro hn buf
    obtain ⟨i₁, v₁⟩ := x
    obtain ⟨i₂, v₂⟩ := y
    rw [List.map_cons, List.map_cons] at hn
    have hne : i₂ ≠ i₁ := fun hc =>
      (List.nodup_cons.mp hn).1 (List.mem_cons.mpr (Or.inl hc))
    simp only [applyAssignments_cons]
    rw [← Option.bind_assoc, ← Option.bind_assoc, setByte_comm buf v₂ v₁ hne]
  | trans hp₁ hp₂ ih₁ ih₂ =>
    intro hn buf
    rw [ih₁ hn buf, ih₂ ((hp₁.map Prod.fst).nodup hn) buf]

/-- C1: In the blob the generator builds, every (code point, row, value)
entry of the spec's glyph table is honoured: for each code point in
{0x41, 0x48, 0x65, 0x6C, 0x6F} the byte at offset `c * 16 + row` equals the
listed value for every listed row. -/
theorem c1_spec_table_rows :
    ∀ t ∈ specRowTable, fontBuffer[t.1 * 16 + t.2.1]? = some t.2.2 := by
  intro t ht
  have hall : specRowTable.all
      (fun t => decide (t.1 * 16 + t.2.1 < 4096) &&
        (lastWrite (t.1 * 16 + t.2.1) font_data_assignments == some t.2.2)) = true := by
    decide
  have h := List.all_eq_true.mp hall t ht
  rw [Bool.and_eq_true] at h
  have hlt : t.1 * 16 + t.2.1 < 4096 := of_decide_eq_true h.1
  have hw : lastWrite (t.1 * 16 + t.2.1) font_data_assignments = some t.2.2 := by
    have h2 := h.2
    rwa [beq_iff_eq] at h2
  rw [fontBuffer_getElem? _ hlt, hw]

/-- Witness for C1 at the first table entry: glyph 'A', row 2, value 0x3C. -/
theorem c1_witness :
    (0x41, 2, 0x3C) ∈ specRowTable ∧ fontBuffer[0x41 * 16 + 2]? = some 0x3C :=
  ⟨by decide, c1_spec_table_rows (0x41, 2, 0x3C) (by decide)⟩

/-- C2: The buffer has length exactly 4096 when allocated, after every
prefix of the glyph-population assignments, and as handed to the file
write; no operation changes its length. -/
theorem c2_length_invariant :
    font_data_init.length = 4096 ∧
    (∀ k buf, applyAssignments font_data_init (List.take k font_data_assignments) = some buf →
      buf.length = 4096) ∧
    font_data = some fontBuffer ∧ fontBuffer.length = 4096 ∧
    (runProgram ⟨true, true⟩).1 =
      [Effect.openWrite outputPath, Effect.writeBytes outputPath fontBuffer,
        Effect.printLine confirmationMessage] :=
  ⟨font_data_init_length,
   fun _k buf h => by rw [applyAssignments_length _ _ _ h, font_data_init_length],
   font_data_eq,
   fontBuffer_length,
   by rw [runProgram_ok]⟩

/-- Witness for C2 at the full assignment prefix (k = 40). -/
theorem c2_witness : fontBuffer.length = 4096 :=
  c2_length_invariant.2.1 40 fontBuffer font_data_eq

/-- C3: Every offset below 4096 that is not one of the populated row
offsets of the five glyphs holds byte 0 in the completed buffer. -/
theorem c3_unpopulated_zero :
    ∀ i, i < 4096 → i ∉ populatedOffsets → fontBuffer[i]? = some 0 := by
  intro i hi hm
  rw [fontBuffer_getElem? i hi, lastWrite_of_not_mem font_data_assignments i hm]

/-- Witness for C3 at offset 0 (code point 0x00, row 0). -/
theorem c3_witness : (0 < 4096 ∧ 0 ∉ populatedOffsets) ∧ fontBuffer[0]? = some 0 :=
  ⟨⟨by decide, by decide⟩, c3_unpopulated_zero 0 (by decide) (by decide)⟩

/-- C4: The spot checks hold in the completed buffer: the five listed glyph
bytes have the listed values, byte 0 is 0x00 and the byte at 0x41*16+2 is
0x3C. -/
theorem c4_spot_checks :
    fontBuffer[0x41 * 16 + 4]? = some 0xC3 ∧
    fontBuffer[0x48 * 16 + 5]? = some 0xFF ∧
    fontBuffer[0x65 * 16 + 7]? = some 0xC0 ∧
    fontBuffer[0x6C * 16 + 10]? = some 0x3C ∧
    fontBuffer[0x6F * 16 + 4]? = some 0x3C ∧
    fontBuffer[0]? = some 0x00 ∧
    fontBuffer[0x41 * 16 + 2]? = some 0x3C := by
  refine ⟨?_, ?_, ?_, ?_, ?_, ?_, ?_⟩ <;>
    rw [fontBuffer_getElem? _ (by decide)] <;> decide

/-- C5: The generator is deterministic: two runs of the buffer-construction
procedure in any two ambient worlds (any clock, randomness or environment)
produce byte-for-byte identical buffers, namely `font_data`. -/
theorem c5_deterministic :
    ∀ w₁ w₂ : World, buildInWorld w₁ = buildInWorld w₂ ∧ buildInWorld w₁ = font_data :=
  fun _ _ => ⟨rfl, rfl⟩

/-- Witness for C5 at two concrete distinct worlds. -/
theorem c5_witness :
    buildInWorld ⟨0, 0, []⟩ = buildInWorld ⟨12345, 678, [("PATH", "/usr/bin")]⟩ ∧
    buildInWorld ⟨0, 0, []⟩ = font_data :=
  c5_deterministic ⟨0, 0, []⟩ ⟨12345, 678, [("PATH", "/usr/bin")]⟩

/-- C6: A failing open or write propagates uncaught: the run exits with
status 1 (the non-zero status of an uncaught exception); a fully successful
run exits 0; and no retry ever happens (at most one open per run). -/
theorem c6_error_propagation :
    ∀ fs : Fs,
      ((fs.dirExists = false ∨ fs.writeOk = false) → (runProgram fs).2 = 1) ∧
      (fs.dirExists = true → fs.writeOk = true → (runProgram fs).2 = 0) ∧
      ((runProgram fs).1.filter isOpenEffect).length ≤ 1 := by
  intro fs
  obtain ⟨d, w⟩ := fs
  cases d with
  | false =>
    rw [runProgram_noDir w]
    exact ⟨fun _ => rfl, fun h => Bool.noConfusion h, by decide⟩
  | true =>
    cases w with
    | false =>
      rw [runProgram_writeFail]
      exact ⟨fun _ => rfl, fun _ h => Bool.noConfusion h, by decide⟩
    | true =>
      rw [runProgram_ok]
      refine ⟨fun h => ?_, fun _ _ => rfl, ?_⟩
      · rcases h with h | h <;> exact Bool.noConfusion h
      · decide

/-- Witness for C6 at a run whose write fails. -/
theorem c6_witness : (runProgram ⟨true, false⟩).2 = 1 :=
  (c6_error_propagation ⟨true, false⟩).1 (Or.inr rfl)

/-- C7: If the target directory does not exist, the run exits non-zero and
performs no file effect at all: the output file is never created, so no
partial or corrupt output can remain. -/
theorem c7_no_partial_output :
    ∀ fs : Fs, fs.dirExists = false →
      (runProgram fs).2 = 1 ∧ (runProgram fs).1 = [] := by
  intro fs h
  obtain ⟨d, w⟩ := fs
  cases d with
  | false => rw [runProgram_noDir w]; exact ⟨rfl, rfl⟩
  | true => exact Bool.noConfusion h

/-- Witness for C7 at a run with the directory missing. -/
theorem c7_witness :
    (runProgram ⟨false, true⟩).2 = 1 ∧ (runProgram ⟨false, true⟩).1 = [] :=
  c7_no_partial_output ⟨false, true⟩ rfl

/-- C8: On success the program's observable effects are exactly:
create/overwrite the single file at the fixed relative path
`assets/default_font.bin` with the blob, and print the one confirmation
line; there is exactly one file write and exactly one printed line, and
every file effect touches only the fixed path. -/
theorem c8_frame :
    runProgram ⟨true, true⟩ =
      ([Effect.openWrite outputPath, Effect.writeBytes outputPath fontBuffer,
        Effect.printLine confirmationMessage], 0) ∧
    outputPath = "assets/default_font.bin" ∧
    confirmationMessage = "Created default_font.bin" ∧
    ((runProgram ⟨true, true⟩).1.filter isFileWriteEffect).length = 1 ∧
    ((runProgram ⟨true, true⟩).1.filter isPrintEffect).length = 1 ∧
    ((runProgram ⟨true, true⟩).1.all
      (fun e => (effectPath e).getD outputPath == outputPath)) = true := by
  refine ⟨runProgram_ok, rfl, rfl, ?_, ?_, ?_⟩ <;> rw [runProgram_ok] <;> rfl

/-- C9 counterexample: the population phase performs 40 assignments, not 41
as the claim states; moreover the offset the claim names as the upper end,
0x6C*16+10, equals 1738, not 1786 (1786 is 0x6F*16+10). -/
theorem c9_counterexample :
    font_data_assignments.length = 40 ∧ font_data_assignments.length ≠ 41 ∧
    0x6C * 16 + 10 = 1738 ∧ 0x6C * 16 + 10 ≠ 1786 ∧ 0x6F * 16 + 10 = 1786 := by
  decide

/-- C9 (amended): Each of the 40 glyph-population assignments (the claim
says 41) targets an offset between 1042 = 0x41*16+2 and 1786 = 0x6F*16+10
(the claim attributes 1786 to 0x6C*16+10, which is 1738), all strictly
below 4096, and assigns an 8-bit value below 256, so no assignment in the
population phase can fail or be out of range. -/
theorem c9_assignments_inbounds :
    font_data_assignments.length = 40 ∧
    (∀ p ∈ font_data_assignments, 1042 ≤ p.1 ∧ p.1 ≤ 1786 ∧ p.1 < 4096 ∧ p.2 < 256) ∧
    font_data.isSome = true :=
  ⟨by decide, by decide, font_data_isSome⟩

/-- Witness for C9 at the first assignment, offset 1042 with value 0x3C. -/
theorem c9_witness :
    (0x41 * 16 + 2, 0b00111100) ∈ font_data_assignments ∧
    (1042 ≤ 0x41 * 16 + 2 ∧ 0x41 * 16 + 2 ≤ 1786 ∧ 0x41 * 16 + 2 < 4096 ∧
      (0b00111100 : Nat) < 256) :=
  ⟨by decide, c9_assignments_inbounds.2.1 (0x41 * 16 + 2, 0b00111100) (by decide)⟩

/-- C10 counterexample: there are 40 glyph-population assignments, not 41
as the claim states. -/
theorem c10_counterexample : ¬ (font_data_assignments.length = 41) := by
  decide

/-- C10 (amended): The 40 glyph-population assignments (the claim says 41)
target pairwise-distinct buffer offsets, so they commute: running any
permutation of them yields the same completed buffer. -/
theorem c10_assignments_commute :
    (font_data_assignments.map Prod.fst).Nodup ∧
    ∀ l : List (Nat × Nat), l.Perm font_data_assignments →
      applyAssignments font_data_init l = font_data := by
  have hnd : (font_data_assignments.map Prod.fst).Nodup := by decide
  refine ⟨hnd, fun l hp => ?_⟩
  exact applyAssignments_perm hp (((hp.map Prod.fst).symm).nodup hnd) font_data_init

/-- Witness for C10 at the reversed assignment order. -/
theorem c10_witness :
    font_data_assignments.reverse.Perm font_data_assignments ∧
    applyAssignments font_data_init font_data_assignments.reverse = font_data :=
  ⟨List.reverse_perm font_data_assignments,
   c10_assignments_commute.2 font_data_assignments.reverse
     (List.reverse_perm font_data_assignments)⟩
